import Mathlib

/-!
# Verification of the AudioGame.js playback controller

Shallow embedding of `src/org/CreadoresProgram/AudioGameJS/AudioGame.js`.

Modelling conventions:
* Engine-clock timestamps, offsets and durations are rationals (`ℚ`); the
  JavaScript `%` operator on finite operands is `jsMod` below.
* The decoded `AudioBuffer` is modelled by its `duration`; a node-graph
  source node is modelled by a `SourceNode` record carrying a fresh id,
  the offset it was `start`ed at, and its `loop` flag.  `gainNode` /
  `pannerNode` presence is a boolean, and `pannerIs3D` records which pan
  node type the current chain uses.
* `console.warn` calls are counted in `warnCount`; invocations of the
  caller-supplied `onended` callback are counted in `onendedFired`
  (`onendedSet` says whether the caller assigned one).
* `chainCount` counts the chains ever built by `#createAndConnectNodes`,
  so "no second chain is built" is expressible.
* Operations that read `this.context.currentTime` take the current engine
  clock value `now : ℚ` as an argument.  The shared `AudioContext` is
  modelled as existing and in the `running` state (the `suspended` branch
  of `play` is a host-interaction concern outside the sequential model).
* `play` is modelled at the point where the load has settled: with a
  buffer present it runs its synchronous body; with no buffer present
  (a disposed or failed controller) the JavaScript either re-throws the
  load failure from `await this.loadingProme` or reaches
  `this.source.start` with `this.source === null` and throws a
  `TypeError` — both leave the state unchanged and reject, modelled as
  `Except.error`.
-/

/-- Truncated-toward-zero integer part of a rational, matching how the
JavaScript `%` operator divides. -/
def ratTrunc (q : ℚ) : ℤ :=
  if 0 ≤ q then ⌊q⌋ else ⌈q⌉

/-- The JavaScript remainder operator `x % d` on finite operands:
`x - d * trunc (x / d)`, whose sign follows the dividend.  (JavaScript
yields `NaN` for `d = 0`; theorems that depend on the remainder assume
`0 < d`.) -/
def jsMod (x d : ℚ) : ℚ :=
  x - d * ratTrunc (x / d)

/-- A `BufferSource` node: `id` is a fresh identifier (chains are
single-use, each build creates a new node), `startOffset` the offset the
node was `start`ed at, `loop` its loop flag. -/
structure SourceNode where
  id : ℕ
  startOffset : ℚ
  loop : Bool
deriving DecidableEq, Repr

/-- Recognized construction options (`options` in the constructor).
`volume` and `pan` are `Option ℚ`: `none` models a value that fails the
`typeof === 'number'` test. -/
structure AGOptions where
  loop : Bool
  volume : Option ℚ
  is3D : Bool
  pan : Option ℚ
  autoplay : Bool
deriving DecidableEq, Repr

/-- The mutable state of one `AudioGame` controller.  Field names follow
the JavaScript instance fields. -/
structure AudioGame where
  buffer : Option ℚ
  source : Option SourceNode
  gainNode : Bool
  pannerNode : Bool
  pannerIs3D : Bool
  _loop : Bool
  _volume : ℚ
  _is3D : Bool
  _pan : ℚ
  _autoplay : Bool
  _position3D : ℚ × ℚ × ℚ
  _currentTime : ℚ
  _duration : ℚ
  _isPlaying : Bool
  _isLoaded : Bool
  _startTime : ℚ
  chainCount : ℕ
  onendedSet : Bool
  onendedFired : ℕ
  warnCount : ℕ
deriving DecidableEq, Repr

namespace AudioGame

/-- The constructor body after the `url` check (`new AudioGame(url, options)`
with a truthy `url`): parameter fields from `options`, transport fields
zeroed, load not yet settled.  `_startTime` is `undefined` until the first
`play`; it is modelled as `0`. -/
def init (opts : AGOptions) : AudioGame :=
  { buffer := none
    source := none
    gainNode := false
    pannerNode := false
    pannerIs3D := false
    _loop := opts.loop
    _volume := match opts.volume with
               | some v => max 0 (min 1 v)
               | none => 1
    _is3D := opts.is3D
    _pan := if opts.is3D then 0
            else match opts.pan with
                 | some p => max (-1) (min 1 p)
                 | none => 0
    _autoplay := opts.autoplay
    _position3D := (0, 0, 0)
    _currentTime := 0
    _duration := 0
    _isPlaying := false
    _isLoaded := false
    _startTime := 0
    chainCount := 0
    onendedSet := false
    onendedFired := 0
    warnCount := 0 }

/-- Success branch of `#loadAudio`: record the decoded buffer (of duration
`d`) and mark loaded.  (The autoplay-triggered `play` call is a separate
step; it never writes `_currentTime`.) -/
def loadSuccess (s : AudioGame) (d : ℚ) : AudioGame :=
  { s with buffer := some d, _duration := d, _isLoaded := true }

/-- Failure branch of `#loadAudio`: clear the buffer, stay unloaded. -/
def loadFailure (s : AudioGame) : AudioGame :=
  { s with buffer := none, _isLoaded := false }

/-- Body of `#createAndConnectNodes`: with no buffer it warns and returns
`null` without touching the node fields; otherwise it tears down any
previous source, creates a fresh source (with `loop` applied), a gain
node, and the pan node type selected by `_is3D`, and wires them up.  The
`offset` parameter of the JavaScript method is unused there — the start
offset is applied by `source.start(0, offset)` inside `play`. -/
def createAndConnectNodes (s : AudioGame) : AudioGame :=
  match s.buffer with
  | none => { s with warnCount := s.warnCount + 1 }
  | some _ =>
    { s with
      source := some { id := s.chainCount, startOffset := 0, loop := s._loop }
      chainCount := s.chainCount + 1
      gainNode := true
      pannerNode := true
      pannerIs3D := s._is3D }

/-- The `onended` handler registered on each source: mark not playing,
reset `_currentTime` unless looping, disconnect and null the source, and
invoke the caller's `onended` callback if one is set.  The handler
dereferences `this.source`, so it is meaningful on states with a live
source. -/
def onendedHandler (s : AudioGame) : AudioGame :=
  { s with
    _isPlaying := false
    _currentTime := if s._loop then s._currentTime else 0
    source := none
    onendedFired := s.onendedFired + (if s.onendedSet then 1 else 0) }

/-- `play()` at engine clock `now`, once the load has settled (see the
file header for the no-buffer case).  With a buffer present: if already
playing with a live source it is a no-op success; otherwise it builds a
fresh chain, starts it at `_currentTime`, and records the clock anchor
`_startTime` (`now - offset`, or plain `now` when looping). -/
def play (s : AudioGame) (now : ℚ) : Except String AudioGame :=
  match s.buffer with
  | none => .error "AudioGame: play failed, no buffer"
  | some _ =>
    if s._isPlaying && s.source.isSome then
      .ok s
    else
      let currentOffset := s._currentTime
      let s1 := createAndConnectNodes s
      let s2 := { s1 with
                  source := s1.source.map fun (c : SourceNode) => { c with startOffset := currentOffset } }
      .ok { s2 with
            _isPlaying := true
            _startTime := if !s._loop then now - currentOffset else now }

/-- `pause()` at engine clock `now`: if a source is live and playing, stop
it, store `(now - _startTime) % buffer.duration` as the logical offset,
mark not playing, and null the source.  (With a live source but no buffer
— unreachable in the sequential lifecycle — `this.buffer.duration` throws
before any field is written, so the state is returned unchanged.) -/
def pause (s : AudioGame) (now : ℚ) : AudioGame :=
  if s.source.isSome && s._isPlaying then
    match s.buffer with
    | some d =>
      { s with
        _currentTime := jsMod (now - s._startTime) d
        _isPlaying := false
        source := none }
    | none => s
  else s

/-- `setPosition3D(x, y, z)`: warns and ignores the call in Stereo mode;
in 3-D mode stores the position (and updates the live panner, a node
parameter outside the modelled state). -/
def setPosition3D (s : AudioGame) (x y z : ℚ) : AudioGame :=
  if !s._is3D then { s with warnCount := s.warnCount + 1 }
  else { s with _position3D := (x, y, z) }

/-- The `is3D` setter with coerced boolean `value`: no-op when the mode
does not change; otherwise store the new mode and, if playing, pause then
replay (a rejected `play` is only logged, as in `this.play().catch`). -/
def is3DSet (s : AudioGame) (value : Bool) (now : ℚ) : AudioGame :=
  if s._is3D == value then s
  else
    let s1 := { s with _is3D := value }
    if s1._isPlaying then
      match play (pause s1 now) now with
      | .ok s2 => s2
      | .error _ => pause s1 now
    else s1

/-- The `loop` setter: store the coerced boolean and update a live
source's loop flag. -/
def loopSet (s : AudioGame) (value : Bool) : AudioGame :=
  { s with
    _loop := value
    source := s.source.map fun (c : SourceNode) => { c with loop := value } }

/-- The `volume` setter: clamp to `[0, 1]` and store (the live gain node
update is a node parameter outside the modelled state). -/
def volumeSet (s : AudioGame) (value : ℚ) : AudioGame :=
  { s with _volume := max 0 (min 1 value) }

/-- The `pan` setter: in 3-D mode warn and change nothing; otherwise
clamp to `[-1, 1]` and store. -/
def panSet (s : AudioGame) (value : ℚ) : AudioGame :=
  if s._is3D then { s with warnCount := s.warnCount + 1 }
  else { s with _pan := max (-1) (min 1 value) }

/-- The `currentTime` getter at engine clock `now`: a live position
`(now - _startTime) % buffer.duration` while playing with a source and a
buffer, the stored `_currentTime` otherwise. -/
def currentTimeGet (s : AudioGame) (now : ℚ) : ℚ :=
  match s.buffer with
  | some d =>
    if s._isPlaying && s.source.isSome then jsMod (now - s._startTime) d
    else s._currentTime
  | none => s._currentTime

/-- The `currentTime` setter (seek) at engine clock `now`: store `value`
clamped to `[0, _duration]`; if playing, pause then replay.  The inner
`play` promise is not awaited; a rejection leaves the paused state (only
reachable without a buffer, where `play` changes nothing). -/
def currentTimeSet (s : AudioGame) (value : ℚ) (now : ℚ) : AudioGame :=
  let s1 := { s with _currentTime := max 0 (min value s._duration) }
  if s1._isPlaying then
    match play (pause s1 now) now with
    | .ok s2 => s2
    | .error _ => pause s1 now
  else s1

/-- `dispose()` at engine clock `now`: pause, disconnect and null any
remaining nodes, drop the buffer, mark unloaded. -/
def dispose (s : AudioGame) (now : ℚ) : AudioGame :=
  let s1 := pause s now
  { s1 with
    source := none
    gainNode := false
    pannerNode := false
    buffer := none
    _isLoaded := false }

/-- The `paused` getter. -/
def pausedGet (s : AudioGame) : Bool :=
  !s._isPlaying

/-- The `readyState` getter. -/
def readyStateGet (s : AudioGame) : ℕ :=
  if s._isLoaded then 4 else 0

end AudioGame

/-! ## Arithmetic facts about the JavaScript remainder -/

theorem ratTrunc_eq_floor {q : ℚ} (h : 0 ≤ q) : ratTrunc q = ⌊q⌋ := by
  simp [ratTrunc, h]

theorem jsMod_eq_mul_fract {x d : ℚ} (hx : 0 ≤ x) (hd : 0 < d) :
    jsMod x d = d * Int.fract (x / d) := by
  have hq : 0 ≤ x / d := div_nonneg hx hd.le
  have hne : d ≠ 0 := ne_of_gt hd
  rw [jsMod, ratTrunc_eq_floor hq, Int.fract]
  field_simp

theorem jsMod_nonneg {x d : ℚ} (hx : 0 ≤ x) (hd : 0 < d) : 0 ≤ jsMod x d := by
  rw [jsMod_eq_mul_fract hx hd]
  exact mul_nonneg hd.le (Int.fract_nonneg _)

theorem jsMod_lt {x d : ℚ} (hx : 0 ≤ x) (hd : 0 < d) : jsMod x d < d := by
  rw [jsMod_eq_mul_fract hx hd]
  calc d * Int.fract (x / d) < d * 1 := mul_lt_mul_of_pos_left (Int.fract_lt_one _) hd
    _ = d := mul_one d

theorem jsMod_eq_self {x d : ℚ} (hx : 0 ≤ x) (hxd : x < d) : jsMod x d = x := by
  have hd : 0 < d := lt_of_le_of_lt hx hxd
  have hq : 0 ≤ x / d := div_nonneg hx hd.le
  have h0 : ⌊x / d⌋ = 0 := by
    rw [Int.floor_eq_zero_iff]
    exact ⟨hq, (div_lt_one hd).mpr hxd⟩
  rw [jsMod, ratTrunc_eq_floor hq, h0]
  simp

/-! ## Sample states used to instantiate theorems with hypotheses -/

/-- Default construction options: `new AudioGame(url, {})`. -/
def optsDefault : AGOptions :=
  { loop := false, volume := none, is3D := false, pan := none, autoplay := false }

/-- A freshly constructed Stereo-mode controller. -/
def stereoSample : AudioGame :=
  AudioGame.init optsDefault

/-- A freshly constructed 3-D-mode controller. -/
def threeDSample : AudioGame :=
  AudioGame.init { optsDefault with is3D := true }

/-! ## Claim theorems -/

/-- C6: setting `pan = p` in Stereo mode stores `p` clamped to `[-1, 1]`
(out-of-range values clamp to the nearest bound); setting `pan` in ThreeD
mode leaves the whole state unchanged apart from logging a warning, and
does not throw (the setter is a total function on the state). -/
theorem pan_set_clamps_stereo_ignored_3d (s : AudioGame) (p : ℚ) :
    (s._is3D = false → (s.panSet p)._pan = max (-1) (min 1 p)) ∧
    (s._is3D = true → s.panSet p = { s with warnCount := s.warnCount + 1 }) := by
  constructor
  · intro h
    simp [AudioGame.panSet, h]
  · intro h
    simp [AudioGame.panSet, h]

/-- Witness for C6 at `p = 5`: the Stereo store clamps to the upper bound
and the ThreeD store only bumps the warning count. -/
theorem pan_set_clamps_stereo_ignored_3d_witness :
    (stereoSample.panSet 5)._pan = max (-1) (min 1 5) ∧
    threeDSample.panSet 5 = { threeDSample with warnCount := threeDSample.warnCount + 1 } :=
  ⟨(pan_set_clamps_stereo_ignored_3d stereoSample 5).1 rfl,
   (pan_set_clamps_stereo_ignored_3d threeDSample 5).2 rfl⟩

/-- C7: `setPosition3D(x, y, z)` in Stereo mode logs a warning and leaves
every stored field (in particular `_position3D`) unchanged without
throwing; it mutates `_position3D` exactly when the controller is in
ThreeD mode. -/
theorem setPosition3D_guarded_by_mode (s : AudioGame) (x y z : ℚ) :
    (s._is3D = false → s.setPosition3D x y z = { s with warnCount := s.warnCount + 1 }) ∧
    (s._is3D = true → s.setPosition3D x y z = { s with _position3D := (x, y, z) }) := by
  constructor
  · intro h
    simp [AudioGame.setPosition3D, h]
  · intro h
    simp [AudioGame.setPosition3D, h]

/-- Witness for C7 at `(x, y, z) = (1, 2, 3)` on fresh Stereo and ThreeD
controllers. -/
theorem setPosition3D_guarded_by_mode_witness :
    stereoSample.setPosition3D 1 2 3 = { stereoSample with warnCount := stereoSample.warnCount + 1 } ∧
    threeDSample.setPosition3D 1 2 3 = { threeDSample with _position3D := (1, 2, 3) } :=
  ⟨(setPosition3D_guarded_by_mode stereoSample 1 2 3).1 rfl,
   (setPosition3D_guarded_by_mode threeDSample 1 2 3).2 rfl⟩

/-- C10: construction with a truthy `is3D` option initializes the stored
pan to `0`, discarding any `pan` option supplied; with a falsy `is3D` a
numeric `pan` option is clamped to `[-1, 1]` and stored (and a
non-numeric one falls back to `0`). -/
theorem init_pan_mode_dependent (opts : AGOptions) (p : ℚ) :
    (opts.is3D = true → (AudioGame.init opts)._pan = 0) ∧
    (opts.is3D = false → opts.pan = some p → (AudioGame.init opts)._pan = max (-1) (min 1 p)) ∧
    (opts.is3D = false → opts.pan = none → (AudioGame.init opts)._pan = 0) := by
  refine ⟨fun h => ?_, fun h hp => ?_, fun h hp => ?_⟩
  · simp [AudioGame.init, h]
  · simp [AudioGame.init, h, hp]
  · simp [AudioGame.init, h, hp]

/-- Witness for C10: constructing with `{is3D: true, pan: 0.7}` stores
pan `0`, while `{is3D: false, pan: 5}` stores the clamp of `5`. -/
theorem init_pan_mode_dependent_witness :
    (AudioGame.init { optsDefault with is3D := true, pan := some (7/10) })._pan = 0 ∧
    (AudioGame.init { optsDefault with pan := some 5 })._pan = max (-1) (min 1 5) :=
  ⟨(init_pan_mode_dependent { optsDefault with is3D := true, pan := some (7/10) } 0).1 rfl,
   (init_pan_mode_dependent { optsDefault with pan := some 5 } 5).2.1 rfl rfl⟩

/-- A loaded Stereo controller: the 10-second buffer has been decoded. -/
def loadedSample : AudioGame :=
  stereoSample.loadSuccess 10

/-- The loaded controller after `play()` at engine clock `0`, spelled out
as a record; `playingSample_reachable` checks it against `play`. -/
def playingSample : AudioGame :=
  { loadedSample with
    source := some { id := 0, startOffset := 0, loop := false }
    chainCount := 1
    gainNode := true
    pannerNode := true
    _isPlaying := true
    _startTime := 0 }

/-- The spelled-out playing sample state is what `play` produces. -/
theorem playingSample_reachable : loadedSample.play 0 = Except.ok playingSample := by
  simp [AudioGame.play, AudioGame.createAndConnectNodes, loadedSample, AudioGame.loadSuccess,
        stereoSample, AudioGame.init, optsDefault, playingSample]

/-- A loaded looping controller (constructed with `{loop: true}`). -/
def loopingLoaded : AudioGame :=
  (AudioGame.init { optsDefault with loop := true }).loadSuccess 10

/-- The looping controller after `play()` at engine clock `0`, spelled out
as a record; `loopingPlaying_reachable` checks it against `play`. -/
def loopingPlaying : AudioGame :=
  { loopingLoaded with
    source := some { id := 0, startOffset := 0, loop := true }
    chainCount := 1
    gainNode := true
    pannerNode := true
    _isPlaying := true
    _startTime := 0 }

/-- The spelled-out looping playing state is what `play` produces. -/
theorem loopingPlaying_reachable : loopingLoaded.play 0 = Except.ok loopingPlaying := by
  simp [AudioGame.play, AudioGame.createAndConnectNodes, loopingLoaded, AudioGame.loadSuccess,
        AudioGame.init, optsDefault, loopingPlaying]

/-- C3: with a loaded buffer, calling `play()` while already playing (live
source present) is a no-op success: the result is `ok` with the state
unchanged, so no second chain is built (`chainCount` is untouched), the
single live source stays, and `_isPlaying`, `_startTime` and
`_currentTime` keep their values. -/
theorem play_idempotent_while_playing (s : AudioGame) (now : ℚ)
    (hb : s.buffer.isSome = true) (hp : s._isPlaying = true) (hs : s.source.isSome = true) :
    s.play now = Except.ok s := by
  obtain ⟨d, hd⟩ := Option.isSome_iff_exists.mp hb
  simp [AudioGame.play, hd, hp, hs]

/-- Witness for C3: a second `play` on the playing sample controller
returns the state unchanged. -/
theorem play_idempotent_while_playing_witness :
    playingSample.play 5 = Except.ok playingSample :=
  play_idempotent_while_playing playingSample 5 (by decide) (by decide) (by decide)

/-- C5: when the natural-end handler fires on a non-looping controller
with a live source, it makes `paused` read `true`, makes `currentTime`
read `0` (the stored offset is reset), nulls the chain, and invokes the
caller-supplied `onended` callback when one is set. -/
theorem natural_end_resets_state (s : AudioGame) (now : ℚ)
    (hl : s._loop = false) (_hs : s.source.isSome = true) :
    s.onendedHandler.pausedGet = true ∧
    s.onendedHandler.currentTimeGet now = 0 ∧
    s.onendedHandler.source = none ∧
    (s.onendedSet = true → s.onendedHandler.onendedFired = s.onendedFired + 1) := by
  refine ⟨?_, ?_, ?_, fun h => ?_⟩
  · simp [AudioGame.onendedHandler, AudioGame.pausedGet]
  · cases hb : s.buffer <;>
      simp [AudioGame.onendedHandler, AudioGame.currentTimeGet, hb, hl]
  · simp [AudioGame.onendedHandler]
  · simp [AudioGame.onendedHandler, h]

/-- Witness for C5: natural end of a playing non-looping controller whose
caller registered an `onended` callback. -/
theorem natural_end_resets_state_witness :
    ({ playingSample with onendedSet := true } : AudioGame).onendedHandler.pausedGet = true ∧
    ({ playingSample with onendedSet := true } : AudioGame).onendedHandler.currentTimeGet 12 = 0 ∧
    ({ playingSample with onendedSet := true } : AudioGame).onendedHandler.source = none ∧
    (({ playingSample with onendedSet := true } : AudioGame).onendedSet = true →
      ({ playingSample with onendedSet := true } : AudioGame).onendedHandler.onendedFired =
        ({ playingSample with onendedSet := true } : AudioGame).onendedFired + 1) :=
  natural_end_resets_state { playingSample with onendedSet := true } 12 (by decide) (by decide)

/-- C9: `dispose()` pauses playback if playing (assuming the lifecycle
fact that a playing controller has a live source and a buffer),
disconnects and nulls all chain nodes, drops the buffer, and marks the
controller unloaded; afterwards any `play()` rejects without building a
chain, so disposal is terminal. -/
theorem dispose_terminal (s : AudioGame) (now now2 : ℚ)
    (h : s._isPlaying = true → (s.source.isSome = true ∧ s.buffer.isSome = true)) :
    (s.dispose now)._isPlaying = false ∧
    (s.dispose now).source = none ∧
    (s.dispose now).gainNode = false ∧
    (s.dispose now).pannerNode = false ∧
    (s.dispose now).buffer = none ∧
    (s.dispose now)._isLoaded = false ∧
    (s.dispose now).play now2 = Except.error "AudioGame: play failed, no buffer" := by
  have hp : (s.pause now)._isPlaying = false := by
    by_cases hpl : s._isPlaying = true
    · obtain ⟨hsrc, hbuf⟩ := h hpl
      obtain ⟨d, hd⟩ := Option.isSome_iff_exists.mp hbuf
      simp [AudioGame.pause, hsrc, hpl, hd]
    · have hpl' : s._isPlaying = false := by simpa using hpl
      simp [AudioGame.pause, hpl']
  refine ⟨?_, ?_, ?_, ?_, ?_, ?_, ?_⟩
  · simpa [AudioGame.dispose] using hp
  · simp [AudioGame.dispose]
  · simp [AudioGame.dispose]
  · simp [AudioGame.dispose]
  · simp [AudioGame.dispose]
  · simp [AudioGame.dispose]
  · simp [AudioGame.dispose, AudioGame.play]

/-- Witness for C9: disposing the playing sample controller at clock `4`
and attempting `play` at clock `6`. -/
theorem dispose_terminal_witness :
    (playingSample.dispose 4)._isPlaying = false ∧
    (playingSample.dispose 4).source = none ∧
    (playingSample.dispose 4).gainNode = false ∧
    (playingSample.dispose 4).pannerNode = false ∧
    (playingSample.dispose 4).buffer = none ∧
    (playingSample.dispose 4)._isLoaded = false ∧
    (playingSample.dispose 4).play 6 = Except.error "AudioGame: play failed, no buffer" :=
  dispose_terminal playingSample 4 6 (by decide)


/-- C4: pausing a playing controller stores the live offset
`(now - _startTime) % duration` as the logical position, so `currentTime`
read at any later clock value returns exactly that offset; a later
`play()` succeeds and starts its fresh source at exactly that stored
offset rather than at zero. -/
theorem pause_stores_offset_and_play_resumes (s : AudioGame) (d now now2 : ℚ)
    (hb : s.buffer = some d) (hp : s._isPlaying = true) (hs : s.source.isSome = true) :
    (s.pause now)._isPlaying = false ∧
    (s.pause now)._currentTime = jsMod (now - s._startTime) d ∧
    (s.pause now).currentTimeGet now2 = jsMod (now - s._startTime) d ∧
    ∃ s2, (s.pause now).play now2 = Except.ok s2 ∧
      s2._isPlaying = true ∧
      s2.source.map SourceNode.startOffset = some (jsMod (now - s._startTime) d) := by
  have hP : s.pause now =
      { s with
        buffer := some d
        _currentTime := jsMod (now - s._startTime) d
        _isPlaying := false
        source := none } := by
    simp [AudioGame.pause, hb, hp, hs]
  refine ⟨?_, ?_, ?_, ?_⟩
  · rw [hP]
  · rw [hP]
  · rw [hP]; simp [AudioGame.currentTimeGet]
  · rw [hP]
    exact ⟨_, rfl, rfl, rfl⟩

/-- Witness for C4: the playing sample controller paused at clock `2` and
resumed at clock `6`. -/
theorem pause_stores_offset_and_play_resumes_witness :
    (playingSample.pause 2)._isPlaying = false ∧
    (playingSample.pause 2)._currentTime = jsMod (2 - playingSample._startTime) 10 ∧
    (playingSample.pause 2).currentTimeGet 6 = jsMod (2 - playingSample._startTime) 10 ∧
    ∃ s2, (playingSample.pause 2).play 6 = Except.ok s2 ∧
      s2._isPlaying = true ∧
      s2.source.map SourceNode.startOffset = some (jsMod (2 - playingSample._startTime) 10) :=
  pause_stores_offset_and_play_resumes playingSample 10 2 6 (by rfl) (by decide) (by decide)

/-- C1 (bug exhibit): on a controller playing a 10-second buffer since
clock `0`, seeking to `5` at clock `2` leaves the logical offset and the
restarted source both at the pre-seek live position `2`, not at the
seeked offset `5`: the `currentTime` setter stores the clamped value, but
the `pause()` it then performs overwrites `_currentTime` with the live
position before `play()` reads it back as the start offset. -/
theorem seek_while_playing_restarts_at_preseek :
    playingSample.currentTimeGet 2 = 2 ∧
    (playingSample.currentTimeSet 5 2)._currentTime = 2 ∧
    (playingSample.currentTimeSet 5 2).source.map SourceNode.startOffset = some 2 ∧
    (playingSample.currentTimeSet 5 2)._isPlaying = true := by
  have hm2 : jsMod 2 10 = 2 := jsMod_eq_self (by norm_num) (by norm_num)
  have hclamp : max (0 : ℚ) (min 5 10) = 5 := by
    rw [min_eq_left (by norm_num : (5 : ℚ) ≤ 10)]
    exact max_eq_right (by norm_num)
  refine ⟨?_, ?_, ?_, ?_⟩ <;>
    simp [playingSample, loadedSample, stereoSample, optsDefault, AudioGame.init,
          AudioGame.loadSuccess, AudioGame.currentTimeGet, AudioGame.currentTimeSet,
          AudioGame.pause, AudioGame.play, AudioGame.createAndConnectNodes, hm2, hclamp]

/-- C2 (counterexample): a looping controller playing a 10-second buffer
since clock `0` has observable offset `3` at clock `3`; toggling `is3D`
at clock `3` replays at that offset but re-anchors `_startTime` to the
toggle instant (the looping branch of `play`), so the observable
`currentTime` right after the toggle is `0`, not the offset `3` at the
moment of the toggle. -/
theorem is3D_toggle_looping_counterexample :
    loopingPlaying._loop = true ∧
    loopingPlaying._isPlaying = true ∧
    loopingPlaying.currentTimeGet 3 = 3 ∧
    (loopingPlaying.is3DSet true 3).currentTimeGet 3 = 0 := by
  have hm3 : jsMod 3 10 = 3 := jsMod_eq_self (by norm_num) (by norm_num)
  have hm0 : jsMod 0 10 = 0 := jsMod_eq_self (by norm_num) (by norm_num)
  refine ⟨rfl, rfl, ?_, ?_⟩ <;>
    simp [loopingPlaying, loopingLoaded, optsDefault, AudioGame.init,
          AudioGame.loadSuccess, AudioGame.currentTimeGet, AudioGame.is3DSet,
          AudioGame.pause, AudioGame.play, AudioGame.createAndConnectNodes, hm3, hm0]

/-- C2 (amended): for a NON-looping playing controller, toggling the
spatial mode (a value whose truthiness differs from the current mode)
pauses then replays, and the observable `currentTime` right after the
toggle equals the observable playback offset at the moment of the toggle;
looping controllers replay at that offset but re-anchor the clock, so
their observable `currentTime` restarts from `0`
(`is3D_toggle_looping_counterexample`). -/
theorem is3D_toggle_preserves_offset_nonlooping (s : AudioGame) (v : Bool) (d now : ℚ)
    (hb : s.buffer = some d) (hl : s._loop = false) (hp : s._isPlaying = true)
    (hs : s.source.isSome = true) (hv : s._is3D ≠ v) (hd : 0 < d)
    (hnow : s._startTime ≤ now) :
    (s.is3DSet v now).currentTimeGet now = s.currentTimeGet now := by
  have hoff0 : 0 ≤ now - s._startTime := sub_nonneg.mpr hnow
  have h1 : 0 ≤ jsMod (now - s._startTime) d := jsMod_nonneg hoff0 hd
  have h2 : jsMod (now - s._startTime) d < d := jsMod_lt hoff0 hd
  have hbeq : (s._is3D == v) = false := by
    simp [hv]
  have hrhs : s.currentTimeGet now = jsMod (now - s._startTime) d := by
    simp [AudioGame.currentTimeGet, hb, hp, hs]
  rw [hrhs]
  simp [AudioGame.is3DSet, hbeq, hp, hs, hb, hl, AudioGame.pause, AudioGame.play,
        AudioGame.createAndConnectNodes, AudioGame.currentTimeGet]
  exact jsMod_eq_self h1 h2

/-- Witness for the amended C2: the non-looping playing sample toggled to
3-D mode at clock `2` keeps its observable offset. -/
theorem is3D_toggle_preserves_offset_nonlooping_witness :
    (playingSample.is3DSet true 2).currentTimeGet 2 = playingSample.currentTimeGet 2 :=
  is3D_toggle_preserves_offset_nonlooping playingSample true 10 2 (by rfl) (by decide)
    (by decide) (by decide) (by decide) (by norm_num) (by norm_num [playingSample])

/-- The spec's data-model invariant: the stored logical offset lies in
`[0, duration]`. -/
def offsetInv (s : AudioGame) : Prop :=
  0 ≤ s._currentTime ∧ s._currentTime ≤ s._duration

/-- C8: every operation that writes the stored offset — construction,
`pause`, the `currentTime` setter (seek) and the natural-end handler —
preserves `storedOffset ∈ [0, duration]` (for `pause` under the lifecycle
facts that the clock is monotone and a playing controller's buffer is the
loaded one with positive duration), and the live position read while
playing wraps modulo the duration, hence never exceeds it. -/
theorem storedOffset_invariant (s : AudioGame) (now v : ℚ) (opts : AGOptions)
    (hdur : 0 ≤ s._duration)
    (hnow : s._startTime ≤ now)
    (hplay : s._isPlaying = true → (s.buffer = some s._duration ∧ 0 < s._duration))
    (hinv : offsetInv s) :
    offsetInv (AudioGame.init opts) ∧
    offsetInv (s.pause now) ∧
    offsetInv (s.currentTimeSet v now) ∧
    offsetInv s.onendedHandler ∧
    (s._isPlaying = true → s.source.isSome = true →
      0 ≤ s.currentTimeGet now ∧ s.currentTimeGet now ≤ s._duration) := by
  have h0 : 0 ≤ now - s._startTime := sub_nonneg.mpr hnow
  refine ⟨?_, ?_, ?_, ?_, ?_⟩
  · simp [offsetInv, AudioGame.init]
  · by_cases hpl : s._isPlaying = true
    · obtain ⟨hb, hd⟩ := hplay hpl
      by_cases hsrc : s.source.isSome = true
      · simp [AudioGame.pause, hpl, hsrc, hb, offsetInv]
        exact ⟨jsMod_nonneg h0 hd, (jsMod_lt h0 hd).le⟩
      · have hsrc' : s.source.isSome = false := by simpa using hsrc
        simpa [AudioGame.pause, hsrc'] using hinv
    · have hpl' : s._isPlaying = false := by simpa using hpl
      simpa [AudioGame.pause, hpl'] using hinv
  · by_cases hpl : s._isPlaying = true
    · obtain ⟨hb, hd⟩ := hplay hpl
      by_cases hsrc : s.source.isSome = true
      · simp [AudioGame.currentTimeSet, AudioGame.pause, AudioGame.play,
              AudioGame.createAndConnectNodes, hpl, hsrc, hb, offsetInv]
        exact ⟨jsMod_nonneg h0 hd, (jsMod_lt h0 hd).le⟩
      · have hsrc' : s.source.isSome = false := by simpa using hsrc
        simp [AudioGame.currentTimeSet, AudioGame.pause, AudioGame.play,
              AudioGame.createAndConnectNodes, hpl, hsrc', hb, offsetInv]
        exact hdur
    · have hpl' : s._isPlaying = false := by simpa using hpl
      simp [AudioGame.currentTimeSet, hpl', offsetInv]
      exact hdur
  · by_cases hL : s._loop = true
    · simpa [offsetInv, AudioGame.onendedHandler, hL] using hinv
    · have hL' : s._loop = false := by simpa using hL
      simp [offsetInv, AudioGame.onendedHandler, hL']
      exact hdur
  · intro hpl hsrc
    obtain ⟨hb, hd⟩ := hplay hpl
    simp [AudioGame.currentTimeGet, hb, hpl, hsrc]
    exact ⟨jsMod_nonneg h0 hd, (jsMod_lt h0 hd).le⟩

/-- Witness for C8: the playing sample controller at clock `5`, seek value
`3`, default construction options. -/
theorem storedOffset_invariant_witness :
    offsetInv (AudioGame.init optsDefault) ∧
    offsetInv (playingSample.pause 5) ∧
    offsetInv (playingSample.currentTimeSet 3 5) ∧
    offsetInv playingSample.onendedHandler ∧
    (playingSample._isPlaying = true → playingSample.source.isSome = true →
      0 ≤ playingSample.currentTimeGet 5 ∧
        playingSample.currentTimeGet 5 ≤ playingSample._duration) :=
  storedOffset_invariant playingSample 5 3 optsDefault
    (by norm_num [playingSample, loadedSample, AudioGame.loadSuccess])
    (by norm_num [playingSample])
    (fun _ => ⟨rfl, by norm_num [playingSample, loadedSample, AudioGame.loadSuccess]⟩)
    (by constructor <;>
          norm_num [offsetInv, playingSample, loadedSample, AudioGame.loadSuccess,
                    stereoSample, AudioGame.init, optsDefault])
